import Mathlib

/-!
Verification development for the polybot-ts trading bot.

The definitions below are a shallow embedding of the TypeScript sources:
  src/strategy/position-sizer.ts     (PositionSizer)
  src/strategy/fee-aware-orders.ts   (FeeAwareOrderPlacer)
  src/paper/paper-trader.ts          (PaperTrader)
  src/strategy/enhanced-dip-arb.ts   (EnhancedDipArbStrategy)

Money and prices are modelled as rationals (the code uses Decimal.js
arbitrary-precision decimals for money and JS numbers for sizing);
times are rationals in milliseconds.  Exchange I/O (order placement,
cancellation, the SDK) is outside the model: the handlers below are the
pure state transitions the source performs around those calls.
-/

namespace Polybot

/-- Side of a binary-option position, as in src/types/strategy.ts. -/
inductive Side where
  | up
  | down
deriving DecidableEq, Repr

/-- Order placement kind: GTC maker-limit or FOK taker-market. -/
inductive OrderType where
  | gtc
  | fok
deriving DecidableEq, Repr

/-- Rounding used by the source via Math.round: floor (x + 1/2). -/
def jsRound (x : ℚ) : ℤ := ⌊x + 1 / 2⌋

-- ── Position sizer (src/strategy/position-sizer.ts) ──────────────────

/-- RiskConfig consumed by the position sizer and the controller. -/
structure RiskConfig where
  maxBalancePctPerTrade : ℚ
  minShares : ℤ
  maxShares : ℤ
  consecutiveLossLimit : ℕ
  cooldownMinutes : ℚ
  emergencyEnabled : Bool
  exitBeforeExpiryMinutes : ℤ
deriving DecidableEq, Repr

/-- Mutable session state of the PositionSizer: consecutive-loss counter
and cooldown deadline (ms timestamp). -/
structure SizerState where
  consecutiveLosses : ℕ
  cooldownUntil : Option ℚ
deriving DecidableEq, Repr

/-- PositionSizer.isTradingPaused at time now: paused only while
now < cooldownUntil.  (The source also lazily clears an elapsed cooldown
inside this check; that mutation does not change the returned value and
is not needed by the claims, so the predicate is modelled pure.) -/
def isTradingPaused (s : SizerState) (now : ℚ) : Bool :=
  match s.cooldownUntil with
  | some t => decide (now < t)
  | none => false

/-- PositionSizer.recordResult: a negative profit increments the
consecutive-loss counter and arms the cooldown when the limit is reached;
any non-negative profit resets the counter to 0. -/
def recordResult (cfg : RiskConfig) (now : ℚ) (s : SizerState) (profit : ℚ) : SizerState :=
  if profit < 0 then
    let losses := s.consecutiveLosses + 1
    { consecutiveLosses := losses
      cooldownUntil :=
        if cfg.consecutiveLossLimit ≤ losses then
          some (now + cfg.cooldownMinutes * 60 * 1000)
        else s.cooldownUntil }
  else
    { s with consecutiveLosses := 0 }

/-- PositionSizer.calculateShares.  Steps, in source order: circuit
breaker; maxRisk = balance * maxBalancePctPerTrade; floor division by the
price capped at maxShares; the 95% safety rail; the minShares go/no-go
gate.  The `price ≤ 0` branch models the JS semantics of
Math.min(Math.floor(maxRisk / 0), maxShares) = maxShares (the division
yields +Infinity when maxRisk > 0; the callers always pass a positive
balance, so the NaN corner for maxRisk = 0 never arises). -/
def calculateShares (cfg : RiskConfig) (paused : Bool) (balance price : ℚ) : ℤ :=
  if paused then 0
  else
    let maxRisk := balance * cfg.maxBalancePctPerTrade
    let shares0 : ℤ := if 0 < price then min ⌊maxRisk / price⌋ cfg.maxShares else cfg.maxShares
    let shares1 : ℤ :=
      if (shares0 : ℚ) * price > balance * (95 / 100) then
        ⌊balance * (95 / 100) / price⌋
      else shares0
    if shares1 < cfg.minShares then 0 else shares1

-- ── Fee-aware order selection (src/strategy/fee-aware-orders.ts) ─────

/-- Slice of TradingConfig consumed by FeeAwareOrderPlacer and the
controller. -/
structure TradingConfig where
  useMakerOrders : Bool
  makerFallbackToTaker : Bool
  takerFeeRate : ℚ
  defaultSumTarget : ℚ
deriving DecidableEq, Repr

/-- FeeAwareOrderPlacer.estimateTakerFee: (1 - p) * FEE_RATE for
p strictly inside (0, 1), else 0. -/
def estimateTakerFee (cfg : TradingConfig) (price : ℚ) : ℚ :=
  if price ≤ 0 ∨ 1 ≤ price then 0 else (1 - price) * cfg.takerFeeRate

/-- FeeAwareOrderPlacer.decideLeg1OrderType. -/
def decideLeg1OrderType (cfg : TradingConfig) (leg1Price oppositePrice sumTarget : ℚ) :
    OrderType :=
  if ¬cfg.useMakerOrders then .fok
  else
    let sum := leg1Price + oppositePrice
    let profitMargin := (sumTarget - sum) / sumTarget
    if cfg.makerFallbackToTaker ∧ profitMargin > estimateTakerFee cfg leg1Price * (3 / 2) then
      .fok
    else .gtc

/-- FeeAwareOrderPlacer.decideLeg2OrderType: always GTC. -/
def decideLeg2OrderType : OrderType := .gtc

-- ── Shared leg / cycle records (src/types/strategy.ts) ───────────────

/-- LegInfo: a filled (or to-be-filled) purchase on one side. -/
structure Leg where
  side : Side
  price : ℚ
  shares : ℚ
  tokenId : String
  orderType : OrderType
  bestBid : Option ℚ
  bestAsk : Option ℚ
deriving DecidableEq, Repr

/-- CycleResult: the monetary outcome of a finished cycle. -/
structure CycleResult where
  totalCost : ℚ
  payout : ℚ
  profit : ℚ
  profitPct : ℚ
  status : String
deriving DecidableEq, Repr

-- ── Paper simulator (src/paper/paper-trader.ts) ──────────────────────

/-- PaperConfig slice consumed by PaperTrader, together with the taker
fee rate it copies from TradingConfig. -/
structure PaperConfig where
  simulateFees : Bool
  simulateSlippage : Bool
  slippagePct : ℚ
  takerFeeRate : ℚ
deriving DecidableEq, Repr

/-- A tracked paper position, keyed by (roundSlug, side). -/
structure Position where
  tokenId : String
  side : Side
  shares : ℚ
  avgPrice : ℚ
  roundSlug : String
deriving DecidableEq, Repr

/-- One line of the append-only paper trade journal. -/
structure TradeRecord where
  sideLabel : String
  shares : ℚ
  price : ℚ
  fee : ℚ
deriving DecidableEq, Repr

/-- State owned by the PaperTrader: balance, positions map and logs.
The (roundSlug, side)-keyed Map is modelled as a list whose keys stay
unique by construction of the operations below. -/
structure PaperState where
  balance : ℚ
  positions : List Position
  history : List CycleResult
  tradeLog : List TradeRecord
deriving DecidableEq, Repr

/-- String label used in trade records. -/
def sideLabel : Side → String
  | .up => "UP"
  | .down => "DOWN"

/-- PaperTrader.calculateFee: zero when fees are simulated off or for GTC
maker orders; otherwise the quadratic taker fee
shares * price * (1 - price) * FEE_RATE. -/
def calculateFee (cfg : PaperConfig) (price shares : ℚ) (orderType : OrderType) : ℚ :=
  if ¬cfg.simulateFees then 0
  else if orderType = .gtc then 0
  else shares * (price * (1 - price) * cfg.takerFeeRate)

/-- Slippage model inside PaperTrader.buy: FOK with both book sides known
fills at price + (ask - price) + size-scaled slip, capped at ask * 1.02;
GTC fills at the limit price; FOK without book data takes the static
fallback slip.  Identity when slippage simulation is off. -/
def effectivePrice (cfg : PaperConfig) (leg : Leg) : ℚ :=
  if ¬cfg.simulateSlippage then leg.price
  else
    match leg.bestBid, leg.bestAsk, leg.orderType with
    | some _, some ask, .fok =>
      let spreadSlip := ask - leg.price
      let sizeSlip := leg.price * cfg.slippagePct * (leg.shares / 50)
      let e := leg.price + spreadSlip + sizeSlip
      let maxPrice := ask * (102 / 100)
      if e > maxPrice then maxPrice else e
    | _, _, .gtc => leg.price
    | _, _, .fok => leg.price + leg.price * cfg.slippagePct

/-- Position-map update inside PaperTrader.buy: merge the fill into the
existing (roundSlug, side) entry by VWAP, or insert a fresh entry. -/
def mergePos (ps : List Position) (roundSlug : String) (leg : Leg) (eff : ℚ) :
    List Position :=
  match ps with
  | [] => [{ tokenId := leg.tokenId, side := leg.side, shares := leg.shares,
             avgPrice := eff, roundSlug := roundSlug }]
  | p :: rest =>
    if p.roundSlug = roundSlug ∧ p.side = leg.side then
      let totalShares := p.shares + leg.shares
      let totalCostBasis := p.avgPrice * p.shares + eff * leg.shares
      { p with avgPrice := totalCostBasis / totalShares, shares := totalShares } :: rest
    else p :: mergePos rest roundSlug leg eff

/-- PaperTrader.buy.  The admission check compares the RAW signal cost
leg.price * leg.shares + fee against the balance; only afterwards is the
slippage-adjusted effective price computed and the effective cost
deducted.  Returns (accepted?, new state). -/
def buy (cfg : PaperConfig) (st : PaperState) (leg : Leg) (roundSlug : String) :
    Bool × PaperState :=
  let cost := leg.price * leg.shares
  let fee := calculateFee cfg leg.price leg.shares leg.orderType
  let totalCost := cost + fee
  if totalCost > st.balance then (false, st)
  else
    let eff := effectivePrice cfg leg
    let effectiveCost := eff * leg.shares + fee
    (true,
      { st with
        balance := st.balance - effectiveCost
        positions := mergePos st.positions roundSlug leg eff
        tradeLog := st.tradeLog ++
          [{ sideLabel := sideLabel leg.side, shares := leg.shares, price := eff, fee := fee }] })

/-- PaperTrader.sell: always succeeds; credits price * shares minus the
taker fee, deletes the (roundSlug, side) position entry, appends a trade
record.  Returns (net proceeds, new state). -/
def sell (cfg : PaperConfig) (st : PaperState) (_tokenId : String) (side : Side)
    (shares price : ℚ) (roundSlug : String) : ℚ × PaperState :=
  let proceeds := price * shares
  let fee := calculateFee cfg price shares .fok
  let netProceeds := proceeds - fee
  (netProceeds,
    { st with
      balance := st.balance + netProceeds
      positions := st.positions.filter
        (fun p => decide (¬(p.roundSlug = roundSlug ∧ p.side = side)))
      tradeLog := st.tradeLog ++
        [{ sideLabel := "SELL_" ++ sideLabel side, shares := shares, price := price,
           fee := fee }] })

/-- Payout computed by PaperTrader.settleRound: one dollar per share held
on the winning side of the given round. -/
def winningQty (ps : List Position) (roundSlug : String) (winning : Side) : ℚ :=
  match ps with
  | [] => 0
  | p :: rest =>
    (if p.roundSlug = roundSlug ∧ p.side = winning then p.shares else 0) +
      winningQty rest roundSlug winning

/-- PaperTrader.settleRound: pay the winning-side quantity, delete every
position of the round.  Returns (payout, new state). -/
def settleRound (st : PaperState) (roundSlug : String) (winningSide : Side) :
    ℚ × PaperState :=
  let payout := winningQty st.positions roundSlug winningSide
  (payout,
    { st with
      balance := st.balance + payout
      positions := st.positions.filter (fun p => decide (¬p.roundSlug = roundSlug)) })

/-- PaperTrader.recordCycle: push to history. -/
def recordCycle (st : PaperState) (r : CycleResult) : PaperState :=
  { st with history := st.history ++ [r] }

/-- PaperTrader.abandonRound: delete every position of the round with no
payout or refund; balance, history and trade log untouched. -/
def abandonRound (st : PaperState) (roundSlug : String) : PaperState :=
  { st with
    positions := st.positions.filter (fun p => decide (¬p.roundSlug = roundSlug)) }

/-- Effective cost a buy deducts for a leg: slippage-adjusted price times
shares plus the fee. -/
def effCostOf (cfg : PaperConfig) (leg : Leg) : ℚ :=
  effectivePrice cfg leg * leg.shares +
    calculateFee cfg leg.price leg.shares leg.orderType

/-- Fold a list of buys on one round through the simulator. -/
def buyMany (cfg : PaperConfig) (roundSlug : String) : PaperState → List Leg → PaperState
  | st, [] => st
  | st, leg :: rest => buyMany cfg roundSlug (buy cfg st leg roundSlug).2 rest

/-- All buys in the sequence are accepted (each against the state the
previous ones produced). -/
def allAccepted (cfg : PaperConfig) (roundSlug : String) : PaperState → List Leg → Bool
  | _, [] => true
  | st, leg :: rest =>
    (buy cfg st leg roundSlug).1 && allAccepted cfg roundSlug (buy cfg st leg roundSlug).2 rest

/-- Sum of the effective costs of a list of buys. -/
def sumEffCost (cfg : PaperConfig) (legs : List Leg) : ℚ :=
  (legs.map (effCostOf cfg)).sum

-- ── Arbitrage controller (src/strategy/enhanced-dip-arb.ts) ──────────

/-- StrategyState, as in src/types/strategy.ts. -/
inductive StrategyState where
  | watching
  | leg1Pending
  | waitingForHedge
  | leg2Pending
  | completed
  | emergencyExit
  | liquidating
deriving DecidableEq, Repr

/-- StrategyStats mutated only by the controller. -/
structure Stats where
  cyclesCompleted : ℕ
  cyclesAbandoned : ℕ
  cyclesWon : ℕ
  totalProfit : ℚ
  winRate : ℚ
  emergencyExits : ℕ
deriving DecidableEq, Repr

/-- EnhancedDipArbStrategy.updateWinRate: won / (completed + abandoned),
or 0 when nothing finished. -/
def updateWinRate (s : Stats) : Stats :=
  let total := s.cyclesCompleted + s.cyclesAbandoned
  { s with winRate := if 0 < total then (s.cyclesWon : ℚ) / (total : ℚ) else 0 }

/-- An incoming dip/hedge signal from the SDK signal source.  Fields the
claims need; prices as rationals. -/
structure Signal where
  dipSide : Side
  currentPrice : ℚ
  oppositeAsk : ℚ
  source : String
  tokenId : String
deriving DecidableEq, Repr

/-- Controller state owned by EnhancedDipArbStrategy.  Exchange order
ids, SDK caches and the timer handles are outside the model;
emergencyTimerOn records whether the 1-second emergency interval exists.
Price histories keep just the prices, newest last (the code stores
(price, timestamp) pairs and reads .at(-1)). -/
structure Ctrl where
  state : StrategyState
  leg1 : Option Leg
  leg2 : Option Leg
  cycleAttemptedThisRound : Bool
  cycleFinalized : Bool
  marketEndTimeMs : ℚ
  currentBalance : ℚ
  stats : Stats
  sizer : SizerState
  upHistory : List ℚ
  downHistory : List ℚ
  emergencyTimerOn : Bool
deriving DecidableEq, Repr

/-- Seconds remaining until market end, as the controller computes it:
Math.max(0, Math.round((marketEndTimeMs - now) / 1000)). -/
def secondsRemainingAt (c : Ctrl) (now : ℚ) : ℤ :=
  max 0 (jsRound ((c.marketEndTimeMs - now) / 1000))

/-- EnhancedDipArbStrategy.resetCycle: drop both legs, clear the
idempotency flag and the emergency timer, return to Watching.  (Orphaned
exchange orders are cancelled on this path in live mode; that is I/O.) -/
def resetCycle (c : Ctrl) : Ctrl :=
  { c with
    leg1 := none
    leg2 := none
    cycleFinalized := false
    emergencyTimerOn := false
    state := .watching }

/-- EnhancedDipArbStrategy.handleLeg1Signal, paper-mode execution path.
Gates in source order: state must be Watching; one entry per market;
enough seconds remaining; source must be dip; sizer not paused; sizer
quantity non-zero.  There is no gate on the price range or on the token
id.  On admission the controller locks out re-entry, records the leg at
the signal price, moves to WaitingForHedge, starts the emergency timer
(when enabled) and emits leg1Executed; the returned Bool is that
emission.  (The best bid/ask snapshot copied onto the paper leg comes
from the SDK orderbook caches, outside this model.) -/
def handleLeg1Signal (tr : TradingConfig) (rk : RiskConfig) (now : ℚ)
    (c : Ctrl) (sig : Signal) : Ctrl × Bool :=
  if c.state ≠ .watching then (c, false)
  else if c.cycleAttemptedThisRound then (c, false)
  else if secondsRemainingAt c now ≤ rk.exitBeforeExpiryMinutes * 60 then (c, false)
  else if sig.source ≠ "dip" then (c, false)
  else if isTradingPaused c.sizer now then (c, false)
  else
    let shares := calculateShares rk (isTradingPaused c.sizer now) c.currentBalance
      sig.currentPrice
    if shares = 0 then (c, false)
    else
      let orderType := decideLeg1OrderType tr sig.currentPrice sig.oppositeAsk
        tr.defaultSumTarget
      let leg : Leg :=
        { side := sig.dipSide, price := sig.currentPrice, shares := (shares : ℚ),
          tokenId := sig.tokenId, orderType := orderType, bestBid := none, bestAsk := none }
      ({ c with
          cycleAttemptedThisRound := true
          leg1 := some leg
          state := .waitingForHedge
          emergencyTimerOn := rk.emergencyEnabled }, true)

/-- EnhancedDipArbStrategy.finalizeLiveCycle: guarded by cycleFinalized
and the presence of leg1; computes totalCost over both legs but sets
payout := leg1.shares, updates stats and the sizer, and reports the
CycleResult it emits as cycleComplete. -/
def finalizeLiveCycle (rk : RiskConfig) (now : ℚ) (c : Ctrl) (leg2Info : Leg) :
    Ctrl × Option CycleResult :=
  match c.leg1 with
  | none => (c, none)
  | some l1 =>
    if c.cycleFinalized then (c, none)
    else
      let totalCost := l1.price * l1.shares + leg2Info.price * leg2Info.shares
      let payout := l1.shares
      let profit := payout - totalCost
      let result : CycleResult :=
        { totalCost := totalCost, payout := payout, profit := profit
          profitPct := if totalCost = 0 then 0 else profit / totalCost
          status := "completed" }
      let stats1 :=
        { c.stats with
          cyclesCompleted := c.stats.cyclesCompleted + 1
          cyclesWon := if 0 < profit then c.stats.cyclesWon + 1 else c.stats.cyclesWon
          totalProfit := c.stats.totalProfit + profit }
      ({ c with
          cycleFinalized := true
          stats := updateWinRate stats1
          sizer := recordResult rk now c.sizer profit }, some result)

/-- EnhancedDipArbStrategy.handleRoundComplete: applies the reported
stats unconditionally (there is no cycleFinalized guard), attempts
settlement in live mode (I/O), then resets the cycle. -/
def handleRoundComplete (c : Ctrl) (status : String) (reportedProfit : Option ℚ) : Ctrl :=
  let profit := reportedProfit.getD 0
  let stats1 :=
    if status = "completed" then
      { c.stats with
        cyclesCompleted := c.stats.cyclesCompleted + 1
        cyclesWon := if 0 < profit then c.stats.cyclesWon + 1 else c.stats.cyclesWon
        totalProfit := c.stats.totalProfit + profit }
    else
      { c.stats with cyclesAbandoned := c.stats.cyclesAbandoned + 1 }
  resetCycle { c with stats := updateWinRate stats1 }

/-- EnhancedDipArbStrategy.performEmergencyExit: no-op without leg1;
otherwise bump emergencyExits, estimate the exit at the last observed
price of leg1's side (0 if none), record the loss/gain with the sizer,
bump cyclesAbandoned and totalProfit, and reset the cycle (the transient
EMERGENCY_EXIT state ends in Watching via resetCycle).  Live-mode order
cancellations and the FOK market sell are exchange I/O.  Returns the new
state and the CycleResult emitted as cycleComplete. -/
def performEmergencyExit (rk : RiskConfig) (now : ℚ) (c : Ctrl) :
    Ctrl × Option CycleResult :=
  match c.leg1 with
  | none => (c, none)
  | some l1 =>
    let hist := if l1.side = .up then c.upHistory else c.downHistory
    let lastMarketPrice := hist.getLast?.getD 0
    let entryValue := l1.price * l1.shares
    let exitValue := lastMarketPrice * l1.shares
    let profit := exitValue - entryValue
    let result : CycleResult :=
      { totalCost := entryValue, payout := exitValue, profit := profit
        profitPct := if entryValue = 0 then 0 else profit / entryValue
        status := "emergency_exit" }
    let stats1 :=
      { c.stats with
        emergencyExits := c.stats.emergencyExits + 1
        cyclesAbandoned := c.stats.cyclesAbandoned + 1
        totalProfit := c.stats.totalProfit + profit }
    (resetCycle
      { c with
        state := .emergencyExit
        stats := updateWinRate stats1
        sizer := recordResult rk now c.sizer profit }, some result)

/-- One tick of the 1-second interval installed by
EnhancedDipArbStrategy.startEmergencyTimer.  The callback returns early
unless leg1 is held AND the state is exactly WaitingForHedge; only then
does it compare the seconds remaining against
exitBeforeExpiryMinutes * 60 and fire the emergency exit.  In
Leg2Pending the interval still exists (executeLeg2Live deliberately does
not clear it) but every tick falls through this guard. -/
def emergencyTimerTick (rk : RiskConfig) (now : ℚ) (c : Ctrl) : Ctrl :=
  if ¬c.emergencyTimerOn then c
  else
    match c.leg1 with
    | none => c
    | some _ =>
      if c.state ≠ .waitingForHedge then c
      else if secondsRemainingAt c now ≤ rk.exitBeforeExpiryMinutes * 60 then
        (performEmergencyExit rk now c).1
      else c

/-- EnhancedDipArbStrategy.handleLeg2Signal, paper-mode execution path.
Admission: state must be WaitingForHedge with leg1 held, and
leg1.price + signal price must not exceed the sum target.  The paper
leg2 copies leg1's share count, the emergency timer is cleared, the
cycle result is computed with payout := leg1.shares, stats and sizer are
updated and the cycle resets.  Returns the new state, whether
leg2Executed was emitted, and the emitted CycleResult. -/
def handleLeg2Signal (tr : TradingConfig) (rk : RiskConfig) (now : ℚ)
    (c : Ctrl) (sig : Signal) : Ctrl × Bool × Option CycleResult :=
  match c.leg1 with
  | none => (c, false, none)
  | some l1 =>
    if c.state ≠ .waitingForHedge then (c, false, none)
    else
      let oppositeAsk := sig.currentPrice
      let sum := l1.price + oppositeAsk
      if sum > tr.defaultSumTarget then (c, false, none)
      else
        let hedgeSide := if l1.side = .up then Side.down else Side.up
        let leg2 : Leg :=
          { side := hedgeSide, price := oppositeAsk, shares := l1.shares,
            tokenId := sig.tokenId, orderType := decideLeg2OrderType,
            bestBid := none, bestAsk := none }
        let totalCost := l1.price * l1.shares + leg2.price * leg2.shares
        let payout := l1.shares
        let profit := payout - totalCost
        let result : CycleResult :=
          { totalCost := totalCost, payout := payout, profit := profit
            profitPct := profit / totalCost, status := "completed" }
        let stats1 :=
          { c.stats with
            cyclesCompleted := c.stats.cyclesCompleted + 1
            cyclesWon := if 0 < profit then c.stats.cyclesWon + 1 else c.stats.cyclesWon
            totalProfit := c.stats.totalProfit + profit }
        (resetCycle
          { c with
            emergencyTimerOn := false
            leg2 := some leg2
            state := .completed
            stats := updateWinRate stats1
            sizer := recordResult rk now c.sizer profit }, true, some result)

-- ── Concrete instances used by the theorems below ────────────────────

/-- Default risk configuration (config.toml defaults): 5% per trade,
5..100 shares, 3-loss limit, 360 min cooldown, 3 min exit threshold. -/
def defaultRisk : RiskConfig :=
  { maxBalancePctPerTrade := 1 / 20, minShares := 5, maxShares := 100,
    consecutiveLossLimit := 3, cooldownMinutes := 360, emergencyEnabled := true,
    exitBeforeExpiryMinutes := 3 }

/-- Default trading configuration: maker orders with taker fallback,
FEE_RATE 0.0625, sum target 0.95. -/
def defaultTrading : TradingConfig :=
  { useMakerOrders := true, makerFallbackToTaker := true, takerFeeRate := 1 / 16,
    defaultSumTarget := 19 / 20 }

/-- Paper configuration with both fee and slippage simulation on
(the config.toml defaults: slippage 2%, FEE_RATE 0.0625). -/
def paperDefault : PaperConfig :=
  { simulateFees := true, simulateSlippage := true, slippagePct := 1 / 50,
    takerFeeRate := 1 / 16 }

/-- Fresh stats. -/
def stats0 : Stats :=
  { cyclesCompleted := 0, cyclesAbandoned := 0, cyclesWon := 0, totalProfit := 0,
    winRate := 0, emergencyExits := 0 }

/-- Fresh sizer session. -/
def sizer0 : SizerState := { consecutiveLosses := 0, cooldownUntil := none }

/-- Controller freshly rotated onto a market that ends at t = 900000 ms,
watching with a $1000 balance. -/
def ctrlWatching : Ctrl :=
  { state := .watching, leg1 := none, leg2 := none, cycleAttemptedThisRound := false,
    cycleFinalized := false, marketEndTimeMs := 900000, currentBalance := 1000,
    stats := stats0, sizer := sizer0, upHistory := [], downHistory := [],
    emergencyTimerOn := false }

/-- A leg1 dip signal carrying a price of 0 and a token id that belongs
to no current market. -/
def sigZeroPrice : Signal :=
  { dipSide := .up, currentPrice := 0, oppositeAsk := 11 / 20, source := "dip",
    tokenId := "stale-token-999" }

/-- Leg1 filled in full: 100 shares UP at 0.40. -/
def leg1Full : Leg :=
  { side := .up, price := 2 / 5, shares := 100, tokenId := "up-token",
    orderType := .gtc, bestBid := none, bestAsk := none }

/-- Leg2 reported terminal with only 60 of 100 shares filled, at 0.50. -/
def leg2Short : Leg :=
  { side := .down, price := 1 / 2, shares := 60, tokenId := "down-token",
    orderType := .gtc, bestBid := none, bestAsk := none }

/-- Controller holding leg1 and waiting for the hedge, emergency timer
running. -/
def ctrlHolding : Ctrl :=
  { ctrlWatching with
    state := .waitingForHedge, leg1 := some leg1Full,
    cycleAttemptedThisRound := true, emergencyTimerOn := true }

/-- Controller holding leg1 whose side last traded at 0.50, above the
0.40 entry, with two consecutive losses already recorded. -/
def ctrlFlatExit : Ctrl :=
  { ctrlHolding with
    upHistory := [1 / 2]
    sizer := { consecutiveLosses := 2, cooldownUntil := none } }

/-- Controller holding leg1 whose side last traded at 0.20, below the
0.40 entry. -/
def ctrlLossExit : Ctrl := { ctrlHolding with upHistory := [1 / 5] }

/-- Controller with the leg2 buy pending and 170 s remaining (below the
3-minute threshold); the emergency timer is still running. -/
def ctrlLeg2Pending : Ctrl :=
  { ctrlHolding with state := .leg2Pending, marketEndTimeMs := 170000 }

/-- A FOK leg with no book snapshot: the paper simulator prices it with
the static fallback slippage. -/
def legNoBook : Leg :=
  { side := .up, price := 1 / 2, shares := 100, tokenId := "tok-up",
    orderType := .fok, bestBid := none, bestAsk := none }

/-- Paper balance of exactly the raw cost of legNoBook:
0.5 * 100 + fee 1.5625 = 51.5625 = 825/16. -/
def paperTight : PaperState :=
  { balance := 825 / 16, positions := [], history := [], tradeLog := [] }

/-- Paper configuration with fees on and slippage off. -/
def paperNoSlip : PaperConfig :=
  { simulateFees := true, simulateSlippage := false, slippagePct := 1 / 50,
    takerFeeRate := 1 / 16 }

/-- Fresh paper account with the default $1000 starting balance. -/
def paperStart : PaperState :=
  { balance := 1000, positions := [], history := [], tradeLog := [] }

/-- A GTC buy of 10 UP at 0.40. -/
def legBuyUp : Leg :=
  { side := .up, price := 2 / 5, shares := 10, tokenId := "tok-u",
    orderType := .gtc, bestBid := none, bestAsk := none }

/-- A FOK buy of 10 DOWN at 0.50. -/
def legBuyDown : Leg :=
  { side := .down, price := 1 / 2, shares := 10, tokenId := "tok-d",
    orderType := .fok, bestBid := none, bestAsk := none }

/-- A position on round a and another on round b. -/
def posRoundA : Position :=
  { tokenId := "ta", side := .up, shares := 30, avgPrice := 2 / 5, roundSlug := "a" }

/-- The round-b position used to exercise the frame conditions. -/
def posRoundB : Position :=
  { tokenId := "tb", side := .up, shares := 40, avgPrice := 1 / 2, roundSlug := "b" }

/-- Paper account holding positions on two distinct rounds. -/
def paperTwoRounds : PaperState :=
  { balance := 500, positions := [posRoundA, posRoundB], history := [],
    tradeLog := [] }

-- ── Helper lemmas ────────────────────────────────────────────────────

/-- A buy is accepted exactly when the RAW cost (signal price times
shares plus fee, before slippage) fits in the balance. -/
theorem buy_fst_iff (cfg : PaperConfig) (st : PaperState) (leg : Leg) (slug : String) :
    (buy cfg st leg slug).1 = true ↔
      leg.price * leg.shares + calculateFee cfg leg.price leg.shares leg.orderType ≤
        st.balance := by
  simp only [buy]
  split_ifs with h
  · simpa using not_le.mpr h
  · simpa using not_lt.mp h

/-- A refused buy leaves the paper state untouched. -/
theorem buy_refused_state (cfg : PaperConfig) (st : PaperState) (leg : Leg) (slug : String)
    (h : st.balance <
      leg.price * leg.shares + calculateFee cfg leg.price leg.shares leg.orderType) :
    (buy cfg st leg slug).2 = st := by
  simp only [buy]
  rw [if_pos h]

/-- An accepted buy deducts the slippage-adjusted effective cost and
merges the leg into the positions by VWAP. -/
theorem buy_accepted_state (cfg : PaperConfig) (st : PaperState) (leg : Leg) (slug : String)
    (h : leg.price * leg.shares + calculateFee cfg leg.price leg.shares leg.orderType ≤
      st.balance) :
    (buy cfg st leg slug).2.balance = st.balance - effCostOf cfg leg ∧
      (buy cfg st leg slug).2.positions =
        mergePos st.positions slug leg (effectivePrice cfg leg) := by
  simp only [buy, effCostOf]
  rw [if_neg (not_lt.mpr h)]
  exact ⟨rfl, rfl⟩

/-- Balance effect of an accepted buy, keyed on the returned flag. -/
theorem buy_balance_of_fst (cfg : PaperConfig) (st : PaperState) (leg : Leg) (slug : String)
    (h : (buy cfg st leg slug).1 = true) :
    (buy cfg st leg slug).2.balance = st.balance - effCostOf cfg leg :=
  (buy_accepted_state cfg st leg slug ((buy_fst_iff cfg st leg slug).mp h)).1

/-- Folding a fully accepted buy sequence subtracts the sum of the
effective costs from the balance. -/
theorem buyMany_balance (cfg : PaperConfig) (slug : String) :
    ∀ (legs : List Leg) (st : PaperState), allAccepted cfg slug st legs = true →
      (buyMany cfg slug st legs).balance = st.balance - sumEffCost cfg legs := by
  intro legs
  induction legs with
  | nil => intro st _; simp [buyMany, sumEffCost]
  | cons l ls ih =>
    intro st h
    rw [allAccepted, Bool.and_eq_true] at h
    rw [buyMany, ih _ h.2, buy_balance_of_fst cfg st l slug h.1]
    simp only [sumEffCost, List.map_cons, List.sum_cons]
    ring

/-- settleRound credits exactly the winning-side quantity. -/
theorem settleRound_balance (st : PaperState) (slug : String) (w : Side) :
    (settleRound st slug w).2.balance = st.balance + winningQty st.positions slug w := rfl

-- ── Claim theorems ───────────────────────────────────────────────────

/-- Claim C1 (code_bug evaluation): at the spec's concrete partial-fill
input — leg1 filled 100 shares at 0.40, leg2 terminal with 60 shares
filled at 0.50 — finalizeLiveCycle records payout 100 (leg1.shares, not
min(100, 60) = 60), total cost 70 and profit +30, where the claim
requires payout 60 and profit -10. -/
theorem c1_finalize_payout_short_leg2 :
    ((finalizeLiveCycle defaultRisk 0 ctrlHolding leg2Short).2.map CycleResult.payout
        = some 100) ∧
    ((finalizeLiveCycle defaultRisk 0 ctrlHolding leg2Short).2.map CycleResult.totalCost
        = some 70) ∧
    ((finalizeLiveCycle defaultRisk 0 ctrlHolding leg2Short).2.map CycleResult.profit
        = some 30) := by
  norm_num [finalizeLiveCycle, ctrlHolding, ctrlWatching, leg1Full, leg2Short,
    defaultRisk, stats0, sizer0, updateWinRate, recordResult]

/-- Claim C2 (code_bug evaluation): a leg1 dip signal whose price is 0
and whose token id matches no current market is ADMITTED by
handleLeg1Signal in the Watching state: leg1Executed is emitted, a leg
with price 0 and the stale token id is recorded, and the state moves to
WaitingForHedge — the claimed price-range and stale-token gates do not
exist in the code. -/
theorem c2_leg1_rejects_nothing :
    (handleLeg1Signal defaultTrading defaultRisk 0 ctrlWatching sigZeroPrice).2 = true ∧
    (handleLeg1Signal defaultTrading defaultRisk 0 ctrlWatching sigZeroPrice).1.state
        = StrategyState.waitingForHedge ∧
    (handleLeg1Signal defaultTrading defaultRisk 0 ctrlWatching sigZeroPrice).1.leg1
        = some { side := .up, price := 0, shares := 100, tokenId := "stale-token-999",
                 orderType := .fok, bestBid := none, bestAsk := none } := by
  norm_num [handleLeg1Signal, ctrlWatching, sigZeroPrice, defaultTrading, defaultRisk,
    stats0, sizer0, calculateShares, isTradingPaused, decideLeg1OrderType,
    estimateTakerFee, secondsRemainingAt, jsRound]

/-- Claim C3 (code_bug evaluation): after finalizeLiveCycle has run
(cycle_finalized is true and cycles_completed is 1), a round_complete
event with status completed increments cycles_completed AGAIN to 2 —
handleRoundComplete has no cycle_finalized guard, so the stats updates
are not skipped as the claim requires. -/
theorem c3_round_complete_double_counts :
    (finalizeLiveCycle defaultRisk 0 ctrlHolding leg2Short).1.cycleFinalized = true ∧
    (finalizeLiveCycle defaultRisk 0 ctrlHolding leg2Short).1.stats.cyclesCompleted = 1 ∧
    (handleRoundComplete (finalizeLiveCycle defaultRisk 0 ctrlHolding leg2Short).1
        "completed" (some 5)).stats.cyclesCompleted = 2 := by
  norm_num [finalizeLiveCycle, handleRoundComplete, ctrlHolding, ctrlWatching,
    leg1Full, leg2Short, defaultRisk, stats0, sizer0, updateWinRate, recordResult,
    resetCycle]

/-- Claim C4 (counterexample): an emergency exit whose last observed
price (0.50) is above the 0.40 entry price records a non-negative
profit, so the sizer RESETS consecutive_losses from 2 to 0 instead of
increasing it by 1 to 3; emergency_exits still increments by 1. -/
theorem c4_losses_reset_on_flat_exit :
    ctrlFlatExit.sizer.consecutiveLosses = 2 ∧
    (performEmergencyExit defaultRisk 0 ctrlFlatExit).1.stats.emergencyExits = 1 ∧
    (performEmergencyExit defaultRisk 0 ctrlFlatExit).1.sizer.consecutiveLosses = 0 := by
  norm_num [performEmergencyExit, ctrlFlatExit, ctrlHolding, ctrlWatching, leg1Full,
    defaultRisk, stats0, sizer0, resetCycle, updateWinRate, recordResult]

/-- Claim C4 (amended): every emergency exit increments
stats.emergency_exits by exactly 1, and the sizer's consecutive_losses
counter increments by exactly 1 precisely when the estimated exit value
(last observed price of leg1's side, 0 if none, times the quantity) is
below the entry value; otherwise the recorded profit is non-negative and
the counter resets to 0. -/
theorem c4_emergency_exit_stats (rk : RiskConfig) (now : ℚ) (c : Ctrl) (l1 : Leg)
    (h : c.leg1 = some l1) :
    (performEmergencyExit rk now c).1.stats.emergencyExits
        = c.stats.emergencyExits + 1 ∧
    (performEmergencyExit rk now c).1.sizer.consecutiveLosses
        = if ((if l1.side = Side.up then c.upHistory else c.downHistory).getLast?.getD 0)
                * l1.shares - l1.price * l1.shares < 0
          then c.sizer.consecutiveLosses + 1 else 0 := by
  constructor
  · simp [performEmergencyExit, h, resetCycle, updateWinRate]
  · simp only [performEmergencyExit, h, resetCycle, updateWinRate, recordResult]
    split_ifs <;> rfl

/-- Witness for the amended C4 theorem at a concrete losing exit: entry
0.40, last observed price 0.20, no prior losses. -/
theorem c4_emergency_exit_stats_witness :
    ctrlLossExit.leg1 = some leg1Full ∧
    ((performEmergencyExit defaultRisk 0 ctrlLossExit).1.stats.emergencyExits
        = ctrlLossExit.stats.emergencyExits + 1 ∧
     (performEmergencyExit defaultRisk 0 ctrlLossExit).1.sizer.consecutiveLosses
        = if ((if leg1Full.side = Side.up then ctrlLossExit.upHistory
                else ctrlLossExit.downHistory).getLast?.getD 0)
                  * leg1Full.shares - leg1Full.price * leg1Full.shares < 0
          then ctrlLossExit.sizer.consecutiveLosses + 1 else 0) :=
  ⟨rfl, c4_emergency_exit_stats defaultRisk 0 ctrlLossExit leg1Full rfl⟩

/-- Claim C5 (code_bug evaluation): in Leg2Pending with leg1 held, the
emergency timer still running and only 170 s remaining (below the
3-minute = 180 s threshold), a 1-second tick is a no-op — the callback
exits unless the state is exactly WaitingForHedge, so no emergency exit
is triggered, contrary to the claim. -/
theorem c5_tick_ignores_leg2_pending :
    ctrlLeg2Pending.state = StrategyState.leg2Pending ∧
    ctrlLeg2Pending.emergencyTimerOn = true ∧
    ctrlLeg2Pending.leg1 = some leg1Full ∧
    secondsRemainingAt ctrlLeg2Pending 0 ≤ defaultRisk.exitBeforeExpiryMinutes * 60 ∧
    emergencyTimerTick defaultRisk 0 ctrlLeg2Pending = ctrlLeg2Pending := by
  simp only [emergencyTimerTick, ctrlLeg2Pending, ctrlHolding, ctrlWatching, leg1Full,
    defaultRisk, stats0, sizer0, secondsRemainingAt, jsRound, ne_eq, reduceCtorEq,
    not_false_eq_true, if_true, if_false]
  norm_num

/-- Claim C6 (counterexample): with slippage simulation on, a FOK buy
with no book snapshot and a balance of exactly the RAW cost
(0.5 * 100 + 1.5625) is ACCEPTED, and deducting the slippage-adjusted
effective cost (0.51 * 100 + 1.5625) drives the balance to -1 — the
refusal decision is not made against the effective price, and an
accepted buy can make the balance negative. -/
theorem c6_accepted_buy_negative_balance :
    (buy paperDefault paperTight legNoBook "r").1 = true ∧
    (buy paperDefault paperTight legNoBook "r").2.balance = -1 := by
  simp only [buy, paperDefault, paperTight, legNoBook, calculateFee, effectivePrice,
    mergePos, sideLabel, reduceCtorEq, if_false]
  norm_num

/-- Claim C6 (amended): the paper buy's refusal decision is made against
the RAW signal price: it is accepted iff price * qty + fee fits in the
balance; a refused buy leaves the state unchanged; an accepted buy
deducts the slippage-adjusted effective cost and merges the leg into the
positions by VWAP (so the balance CAN go negative when slippage raises
the effective price above the raw price). -/
theorem c6_buy_admission_raw_price (cfg : PaperConfig) (st : PaperState) (leg : Leg)
    (slug : String) :
    ((buy cfg st leg slug).1 = true ↔
      leg.price * leg.shares + calculateFee cfg leg.price leg.shares leg.orderType ≤
        st.balance) ∧
    ((buy cfg st leg slug).1 = false → (buy cfg st leg slug).2 = st) ∧
    ((buy cfg st leg slug).1 = true →
      (buy cfg st leg slug).2.balance = st.balance - effCostOf cfg leg ∧
      (buy cfg st leg slug).2.positions =
        mergePos st.positions slug leg (effectivePrice cfg leg)) := by
  refine ⟨buy_fst_iff cfg st leg slug, ?_, ?_⟩
  · intro hf
    have hnle : ¬(leg.price * leg.shares +
        calculateFee cfg leg.price leg.shares leg.orderType ≤ st.balance) := by
      intro hle
      rw [(buy_fst_iff cfg st leg slug).mpr hle] at hf
      exact Bool.noConfusion hf
    exact buy_refused_state cfg st leg slug (not_le.mp hnle)
  · intro ht
    exact buy_accepted_state cfg st leg slug ((buy_fst_iff cfg st leg slug).mp ht)

/-- Witness for the amended C6 theorem: a 10-share GTC buy at 0.40 on a
fresh $1000 account is accepted and deducts its effective cost. -/
theorem c6_buy_admission_raw_price_witness :
    (buy paperDefault paperStart legBuyUp "r").1 = true ∧
    (buy paperDefault paperStart legBuyUp "r").2.balance =
      paperStart.balance - effCostOf paperDefault legBuyUp := by
  have h := c6_buy_admission_raw_price paperDefault paperStart legBuyUp "r"
  have ha : (buy paperDefault paperStart legBuyUp "r").1 = true :=
    h.1.mpr (by norm_num [legBuyUp, calculateFee, paperDefault, paperStart])
  exact ⟨ha, (h.2.2 ha).1⟩

/-- Claim C7 (confirmed): for any balance b ≥ 0 and price p in (0, 1),
calculateShares returns 0 or a quantity between minShares and maxShares
whose cost stays within 95% of the balance. -/
theorem c7_calculate_shares_bounds (cfg : RiskConfig) (paused : Bool) (b p : ℚ)
    (hb : 0 ≤ b) (hp : 0 < p) (hp1 : p < 1) :
    calculateShares cfg paused b p = 0 ∨
      (cfg.minShares ≤ calculateShares cfg paused b p ∧
        calculateShares cfg paused b p ≤ cfg.maxShares ∧
        (calculateShares cfg paused b p : ℚ) * p ≤ 95 / 100 * b) := by
  simp only [calculateShares]
  split_ifs with h1 h2 h3 h4
  · exact Or.inl rfl
  · exact Or.inl rfl
  · refine Or.inr ⟨not_lt.mp h3, ?_, ?_⟩
    · have hle : ((⌊b * (95 / 100) / p⌋ : ℤ) : ℚ) ≤ b * (95 / 100) / p := Int.floor_le _
      have hlt : b * (95 / 100) / p <
          ((⌊b * cfg.maxBalancePctPerTrade / p⌋ ⊓ cfg.maxShares : ℤ) : ℚ) := by
        rw [div_lt_iff₀ hp]
        exact h2
      have hzlt : (⌊b * (95 / 100) / p⌋ : ℤ) <
          ⌊b * cfg.maxBalancePctPerTrade / p⌋ ⊓ cfg.maxShares := by
        exact_mod_cast lt_of_le_of_lt hle hlt
      exact le_trans hzlt.le inf_le_right
    · have hle : ((⌊b * (95 / 100) / p⌋ : ℤ) : ℚ) ≤ b * (95 / 100) / p := Int.floor_le _
      calc ((⌊b * (95 / 100) / p⌋ : ℤ) : ℚ) * p
          ≤ b * (95 / 100) / p * p := mul_le_mul_of_nonneg_right hle (le_of_lt hp)
        _ = b * (95 / 100) := div_mul_cancel₀ _ (ne_of_gt hp)
        _ = 95 / 100 * b := by ring
  · exact Or.inl rfl
  · refine Or.inr ⟨not_lt.mp h4, inf_le_right, ?_⟩
    have hnr := not_lt.mp h2
    linarith

/-- Witness for C7: balance 1000 at price 0.40 with the default risk
configuration yields 100 shares, within [5, 100] and under 95% of the
balance. -/
theorem c7_calculate_shares_bounds_witness :
    (0 : ℚ) ≤ 1000 ∧ (0 : ℚ) < 2 / 5 ∧ (2 : ℚ) / 5 < 1 ∧
    (calculateShares defaultRisk false 1000 (2 / 5) = 0 ∨
      (defaultRisk.minShares ≤ calculateShares defaultRisk false 1000 (2 / 5) ∧
        calculateShares defaultRisk false 1000 (2 / 5) ≤ defaultRisk.maxShares ∧
        (calculateShares defaultRisk false 1000 (2 / 5) : ℚ) * (2 / 5)
            ≤ 95 / 100 * 1000)) :=
  ⟨by norm_num, by norm_num, by norm_num,
    c7_calculate_shares_bounds defaultRisk false 1000 (2 / 5) (by norm_num) (by norm_num)
      (by norm_num)⟩

/-- Claim C8 (confirmed): for any sequence of accepted buys on one round
followed by a settlement of that round, the final balance is the
starting balance minus the sum of the effective costs plus the quantity
held on the winning side at settlement. -/
theorem c8_paper_roundtrip_balance (cfg : PaperConfig) (st : PaperState) (legs : List Leg)
    (slug : String) (w : Side) (h : allAccepted cfg slug st legs = true) :
    (settleRound (buyMany cfg slug st legs) slug w).2.balance =
      st.balance - sumEffCost cfg legs +
        winningQty (buyMany cfg slug st legs).positions slug w := by
  rw [settleRound_balance, buyMany_balance cfg slug legs st h]

/-- Witness for C8: two accepted buys (10 UP at 0.40 GTC, 10 DOWN at
0.50 FOK) on round r, settled with UP winning. -/
theorem c8_paper_roundtrip_balance_witness :
    allAccepted paperNoSlip "r" paperStart [legBuyUp, legBuyDown] = true ∧
    (settleRound (buyMany paperNoSlip "r" paperStart [legBuyUp, legBuyDown]) "r"
        Side.up).2.balance =
      paperStart.balance - sumEffCost paperNoSlip [legBuyUp, legBuyDown] +
        winningQty (buyMany paperNoSlip "r" paperStart
          [legBuyUp, legBuyDown]).positions "r" Side.up := by
  have hacc : allAccepted paperNoSlip "r" paperStart [legBuyUp, legBuyDown] = true := by
    simp only [allAccepted, buy, calculateFee, effectivePrice, mergePos, sideLabel,
      legBuyUp, legBuyDown, paperNoSlip, paperStart, reduceCtorEq, if_false, if_true]
    norm_num
  exact ⟨hacc,
    c8_paper_roundtrip_balance paperNoSlip paperStart [legBuyUp, legBuyDown] "r" Side.up
      hacc⟩

/-- Claim C9 (confirmed): the paper sell never refuses — for every
state, token, side, quantity, price and round it returns and credits
exactly price * qty minus the taker fee, and the positions afterwards
are exactly the previous ones without the (round, side) entry. -/
theorem c9_sell_never_refuses (cfg : PaperConfig) (st : PaperState) (tok : String)
    (side : Side) (shares price : ℚ) (slug : String) :
    (sell cfg st tok side shares price slug).1 =
        price * shares - calculateFee cfg price shares OrderType.fok ∧
    (sell cfg st tok side shares price slug).2.balance =
        st.balance + (price * shares - calculateFee cfg price shares OrderType.fok) ∧
    (∀ p : Position, p ∈ (sell cfg st tok side shares price slug).2.positions ↔
        p ∈ st.positions ∧ ¬(p.roundSlug = slug ∧ p.side = side)) ∧
    (sell cfg st tok side shares price slug).2.history = st.history := by
  refine ⟨rfl, rfl, ?_, rfl⟩
  intro p
  simp [sell, List.mem_filter]
  tauto

/-- Claim C10 (confirmed): settleRound and abandonRound delete exactly
the positions of the given round — every position of another round
survives unchanged and nothing else appears — and abandonRound leaves
the balance, the cycle history and the trade log untouched. -/
theorem c10_settle_abandon_frame (st : PaperState) (slug : String) (w : Side) :
    (∀ p : Position, p ∈ st.positions → p.roundSlug ≠ slug →
        p ∈ (settleRound st slug w).2.positions ∧
          p ∈ (abandonRound st slug).positions) ∧
    (∀ p : Position, p ∈ (settleRound st slug w).2.positions →
        p ∈ st.positions ∧ p.roundSlug ≠ slug) ∧
    (∀ p : Position, p ∈ (abandonRound st slug).positions →
        p ∈ st.positions ∧ p.roundSlug ≠ slug) ∧
    (abandonRound st slug).balance = st.balance ∧
    (abandonRound st slug).history = st.history ∧
    (abandonRound st slug).tradeLog = st.tradeLog := by
  refine ⟨?_, ?_, ?_, rfl, rfl, rfl⟩ <;> intro p <;>
    simp [settleRound, abandonRound, List.mem_filter] <;> tauto

/-- Witness for C10: the round-b position survives settling and
abandoning round a, and abandoning keeps the balance. -/
theorem c10_settle_abandon_frame_witness :
    posRoundB ∈ (settleRound paperTwoRounds "a" Side.up).2.positions ∧
    posRoundB ∈ (abandonRound paperTwoRounds "a").positions ∧
    (abandonRound paperTwoRounds "a").balance = paperTwoRounds.balance :=
  ⟨((c10_settle_abandon_frame paperTwoRounds "a" Side.up).1 posRoundB
      (by simp [paperTwoRounds]) (by simp [posRoundB])).1,
   ((c10_settle_abandon_frame paperTwoRounds "a" Side.up).1 posRoundB
      (by simp [paperTwoRounds]) (by simp [posRoundB])).2,
   (c10_settle_abandon_frame paperTwoRounds "a" Side.up).2.2.2.1⟩

end Polybot
